import Mathlib

/-!
Verification of the Express CRUD API template (categories resource, env
configuration and application assembly).

The definitions below are shallow embeddings of the TypeScript sources:
  - slug derivation and the category handlers from the
    categories.handlers.ts listing in src/README.md,
  - the environment schema from the env.ts source (EnvSchema),
  - the application assembly from src/unnamed/part_000.
Strings are modelled as Lean strings (lists of characters), the database
as an in-memory list of records, and persistence errors as values carrying
the Prisma error code string that the handlers inspect.
-/

namespace ApiTemplate

/-! ## Slug derivation

Embeds the expression in createCategory and updateCategory:
  name.toLowerCase().replace(/[^a-z0-9]+/g, "-").replace(/(^-|-$)/g, "")
The first replace collapses every maximal run of characters outside
[a-z0-9] into a single hyphen; the second removes the (at most one)
leading hyphen and the (at most one) trailing hyphen. -/

/-- Membership in the regex class [a-z0-9]: code points 97-122 and 48-57. -/
def isLowerAlnum (c : Char) : Bool :=
  (decide (97 ≤ c.toNat) && decide (c.toNat ≤ 122)) ||
    (decide (48 ≤ c.toNat) && decide (c.toNat ≤ 57))

/-- One pass of replace(/[^a-z0-9]+/g, "-"): the flag records whether the
previous character belonged to a non-alphanumeric run already replaced. -/
def collapseRuns (inRun : Bool) : List Char → List Char
  | [] => []
  | c :: cs =>
    if isLowerAlnum c then c :: collapseRuns false cs
    else if inRun then collapseRuns true cs
    else '-' :: collapseRuns true cs

/-- Removes a single leading hyphen (the ^- alternative of the second
regex). -/
def dropLeadHyphen (l : List Char) : List Char :=
  match l with
  | [] => []
  | c :: cs => if c = '-' then cs else c :: cs

/-- Removes a single trailing hyphen (the -$ alternative of the second
regex). -/
def dropTrailHyphen (l : List Char) : List Char :=
  (dropLeadHyphen l.reverse).reverse

/-- replace(/(^-|-$)/g, ""): the regex scans left to right, so the leading
hyphen is removed first, then the trailing one. -/
def dropEdgeHyphens (l : List Char) : List Char :=
  dropTrailHyphen (dropLeadHyphen l)

/-- The whole slug pipeline on character lists. -/
def slugifyChars (l : List Char) : List Char :=
  dropEdgeHyphens (collapseRuns false (l.map Char.toLower))

/-- Two adjacent characters are not both hyphens. -/
def NotHH (a b : Char) : Prop :=
  ¬(a = '-' ∧ b = '-')

/-- A character a derived slug may contain. -/
def SlugChar (c : Char) : Prop :=
  isLowerAlnum c = true ∨ c = '-'

/-- Slug derived from a name, as in the handlers. -/
def slugify (s : String) : String :=
  String.mk (slugifyChars s.data)

/-! ## Data model

The Category model of the README prisma schema.  The id is assigned by the
store (cuid in Prisma), color defaults to "#3B82F6", isActive to true, and
createdAt to the creation instant; updatedAt is not tracked because no
handler reads it. -/

structure Category where
  id : String
  name : String
  slug : String
  description : Option String
  color : String
  isActive : Bool
  createdAt : Nat
deriving DecidableEq

/-- The persistent store together with an id supply and a clock. -/
structure Store where
  cats : List Category
  nextId : Nat
  now : Nat
deriving DecidableEq

/-- A persistence-layer error; the handlers only ever inspect its code
string (Prisma sets "P2002" for uniqueness-constraint violations). -/
structure PrismaError where
  code : String
deriving DecidableEq

/-- JSON response bodies produced by the handlers. -/
inductive RespBody where
  | cat (c : Category)
  | cats (l : List Category)
  | err (error : String)
  | errDetails (error : String) (details : List String)
  | msg (message : String)
deriving DecidableEq

structure Response where
  status : Nat
  body : RespBody
deriving DecidableEq

/-! ## Request bodies

CreateCategorySchema omits id/createdAt/updatedAt from CategorySchema;
UpdateCategorySchema is the same shape with every field optional.  The
handlers test fields for JavaScript truthiness, so optional string fields
are carried as Option String and emptiness matters. -/

structure CreateBody where
  name : String
  slug : Option String
  description : Option String
  color : Option String
  isActive : Option Bool
deriving DecidableEq

structure UpdateBody where
  name : Option String
  slug : Option String
  description : Option String
  color : Option String
  isActive : Option Bool
deriving DecidableEq

/-- JavaScript falsiness of an optional string (undefined or ""). -/
def isFalsyStr : Option String → Bool
  | none => true
  | some s => decide (s = "")

/-- JavaScript truthiness of an optional string. -/
def isTruthyStr (o : Option String) : Bool :=
  !(isFalsyStr o)

/-! ## Database operations (Prisma calls) -/

/-- db.category.findUnique({ where: { id } }). -/
def findUniqueId (cats : List Category) (id : String) : Option Category :=
  cats.find? (fun c => decide (c.id = id))

/-- Does inserting a record with this name and slug violate the unique
constraints on Category.name or Category.slug? -/
def conflictsWith (cats : List Category) (name slug : String) : Bool :=
  cats.any (fun c => decide (c.name = name) || decide (c.slug = slug))

def freshId (st : Store) : String :=
  "c" ++ toString st.nextId

/-- The row materialized by db.category.create: id and createdAt are
assigned by the store, color and isActive take their schema defaults when
absent from the payload. -/
def createdCat (st : Store) (b : CreateBody) (slug : String) : Category :=
  { id := freshId st, name := b.name, slug := slug,
    description := b.description, color := b.color.getD "#3B82F6",
    isActive := b.isActive.getD true, createdAt := st.now }

/-- db.category.create({ data }): applies the schema defaults for color and
isActive, assigns id and createdAt, and reports "P2002" when the name or
slug duplicates an existing row.  A create without the required slug fails
with a non-"P2002" validation error. -/
def dbCreate (st : Store) (b : CreateBody) : Except PrismaError (Category × Store) :=
  match b.slug with
  | none => .error { code := "MISSING_REQUIRED_VALUE" }
  | some slug =>
    if conflictsWith st.cats b.name slug then .error { code := "P2002" }
    else .ok (createdCat st b slug,
      { cats := createdCat st b slug :: st.cats,
        nextId := st.nextId + 1, now := st.now + 1 })

/-- Fields present in an update body overwrite the stored record. -/
def applyUpdate (c : Category) (b : UpdateBody) : Category :=
  { c with
    name := b.name.getD c.name
    slug := b.slug.getD c.slug
    description := match b.description with | some d => some d | none => c.description
    color := b.color.getD c.color
    isActive := b.isActive.getD c.isActive }

/-- Would the updated row collide with a different row on name or slug? -/
def updateConflict (cats : List Category) (id : String) (c' : Category) : Bool :=
  cats.any (fun d =>
    !(decide (d.id = id)) && (decide (d.name = c'.name) || decide (d.slug = c'.slug)))

/-- db.category.update({ where: { id }, data }): "P2025" when the row is
absent, "P2002" when the new name or slug duplicates a different row. -/
def dbUpdate (st : Store) (id : String) (b : UpdateBody) :
    Except PrismaError (Category × Store) :=
  match findUniqueId st.cats id with
  | none => .error { code := "P2025" }
  | some c =>
    let c' := applyUpdate c b
    if updateConflict st.cats id c' then .error { code := "P2002" }
    else .ok (c', { cats := st.cats.map (fun d => if d.id = id then c' else d),
                    nextId := st.nextId, now := st.now + 1 })

/-- Ordering used by listCategories: orderBy: { createdAt: "desc" }. -/
def createdDesc (a b : Category) : Prop :=
  b.createdAt ≤ a.createdAt

instance : DecidableRel createdDesc :=
  fun a b => Nat.decLe b.createdAt a.createdAt

instance : IsTotal Category createdDesc :=
  ⟨fun a b => Nat.le_total b.createdAt a.createdAt⟩

instance : IsTrans Category createdDesc :=
  ⟨fun _ _ _ hab hbc => Nat.le_trans hbc hab⟩

/-- db.category.findMany({ where: { isActive: true },
orderBy: { createdAt: "desc" } }). -/
def dbFindManyActiveDesc (cats : List Category) : List Category :=
  List.insertionSort createdDesc (cats.filter (fun c => c.isActive))

/-! ## Category handlers (categories.handlers.ts in src/README.md) -/

/-- The slug-generation prelude of createCategory:
if (!req.body.slug && req.body.name) req.body.slug = slugify(name). -/
def deriveCreateBody (b : CreateBody) : CreateBody :=
  if isFalsyStr b.slug && !(decide (b.name = "")) then
    { b with slug := some (slugify b.name) }
  else b

/-- The catch block of createCategory. -/
def createRespondErr (e : PrismaError) : Response :=
  if e.code = "P2002" then
    { status := 409, body := .err "Category with this name or slug already exists" }
  else
    { status := 500, body := .err "Failed to create category" }

def createCategory (st : Store) (b : CreateBody) : Response × Store :=
  match dbCreate st (deriveCreateBody b) with
  | .ok (c, st') => ({ status := 201, body := .cat c }, st')
  | .error e => (createRespondErr e, st)

/-- The body of listCategories once the findMany call has produced either
rows or a persistence error. -/
def listCategoriesWith (out : Except PrismaError (List Category)) : Response :=
  match out with
  | .ok l => { status := 200, body := .cats l }
  | .error _ => { status := 500, body := .err "Failed to fetch categories" }

def listCategories (st : Store) : Response :=
  listCategoriesWith (.ok (dbFindManyActiveDesc st.cats))

def getCategory (st : Store) (id : String) : Response :=
  match findUniqueId st.cats id with
  | none => { status := 404, body := .msg "Category not found" }
  | some c => { status := 200, body := .cat c }

/-- The slug-generation prelude of updateCategory:
if (req.body.name && !req.body.slug) req.body.slug = slugify(name). -/
def deriveUpdateBody (b : UpdateBody) : UpdateBody :=
  if isTruthyStr b.name && isFalsyStr b.slug then
    { b with slug := some (slugify (b.name.getD "")) }
  else b

/-- The catch block of updateCategory. -/
def updateRespondErr (e : PrismaError) : Response :=
  if e.code = "P2002" then
    { status := 409, body := .err "Category with this name or slug already exists" }
  else
    { status := 500, body := .err "Failed to update category" }

def updateCategory (st : Store) (id : String) (b : UpdateBody) : Response × Store :=
  match findUniqueId st.cats id with
  | none => ({ status := 404, body := .msg "Category not found" }, st)
  | some _ =>
    match dbUpdate st id (deriveUpdateBody b) with
    | .ok (c, st') => ({ status := 200, body := .cat c }, st')
    | .error e => (updateRespondErr e, st)

/-- deleteCategory: looks the row up (404 when absent) and otherwise soft
deletes it with db.category.update({ data: { isActive: false } }). -/
def deleteCategory (st : Store) (id : String) : Response × Store :=
  match findUniqueId st.cats id with
  | none => ({ status := 404, body := .msg "Category not found" }, st)
  | some _ =>
    ({ status := 200, body := .msg "Category deleted successfully" },
     { cats := st.cats.map (fun d => if d.id = id then { d with isActive := false } else d),
       nextId := st.nextId, now := st.now + 1 })

/-! ## Environment configuration (env.ts, EnvSchema) -/

/-- The raw process environment restricted to the variables EnvSchema
reads; each may be unset. -/
structure RawEnv where
  NODE_ENV : Option String
  PORT : Option String
  DATABASE_URL : Option String
  FRONTEND_URL : Option String
deriving DecidableEq

/-- z.coerce.number() applied to a set variable, restricted to the decimal
naturals this configuration uses; the empty string coerces to 0 as in
JavaScript, and non-numeric strings fail. -/
def coerceNumber (s : String) : Option Nat :=
  if s = "" then some 0 else s.toNat?

/-- Parsed configuration, z.infer of EnvSchema. -/
structure EnvConfig where
  NODE_ENV : String
  PORT : Nat
  DATABASE_URL : String
  FRONTEND_URL : String
deriving DecidableEq

/-- The fields of EnvSchema that fail to parse, in schema order: PORT must
coerce to a number when set, DATABASE_URL is required; NODE_ENV and
FRONTEND_URL are defaulted strings and cannot fail. -/
def envIssues (r : RawEnv) : List String :=
  (match r.PORT with
   | none => []
   | some s => match coerceNumber s with | some _ => [] | none => ["PORT"]) ++
    (match r.DATABASE_URL with | none => ["DATABASE_URL"] | some _ => [])

/-- EnvSchema.parse: NODE_ENV defaults to "development", PORT is coerced to
a number and defaults to 5000, DATABASE_URL is required, FRONTEND_URL
defaults.  Zod collects the issues of every failing field and fails when
any field failed. -/
def parseEnv (r : RawEnv) : Except (List String) EnvConfig :=
  if envIssues r = [] then
    .ok { NODE_ENV := r.NODE_ENV.getD "development",
          PORT := match r.PORT with
                  | none => 5000
                  | some s => (coerceNumber s).getD 0,
          DATABASE_URL := r.DATABASE_URL.getD "",
          FRONTEND_URL := r.FRONTEND_URL.getD "http://localhost:3000" }
  else .error (envIssues r)

/-- What the process does at startup: env.ts prints the field errors and
calls process.exit(1) when parsing fails; otherwise index.ts listens on
env.PORT. -/
inductive StartupOutcome where
  | exited (code : Nat) (issues : List String)
  | listening (port : Nat)
deriving DecidableEq

def startup (r : RawEnv) : StartupOutcome :=
  match parseEnv r with
  | .error issues => .exited 1 issues
  | .ok e => .listening e.PORT

/-! ## Application assembly (src/unnamed/part_000) -/

/-- The cross-cutting middlewares the specification names. -/
inductive Mw where
  | cors
  | helmet
  | rateLimit
  | jsonBody
  | logger
deriving DecidableEq

/-- An Express application: middlewares in installation order, router
mounts in registration order (mount path, router), and the listening
port once listen has been called. -/
structure ExpressApp where
  middlewares : List Mw
  mounts : List (String × String)
  listening : Option Nat
deriving DecidableEq

def ExpressApp.useMw (a : ExpressApp) (m : Mw) : ExpressApp :=
  { a with middlewares := a.middlewares ++ [m] }

def ExpressApp.mount (a : ExpressApp) (path router : String) : ExpressApp :=
  { a with mounts := a.mounts ++ [(path, router)] }

def ExpressApp.listen (a : ExpressApp) (port : Nat) : ExpressApp :=
  { a with listening := some port }

/-- const app = express(); -/
def expressInit : ExpressApp :=
  { middlewares := [], mounts := [], listening := none }

/-- app.use(cors()); -/
def appAfterCors : ExpressApp :=
  expressInit.useMw .cors

/-- const PORT = process.env.PORT || 8000 (modelled with PORT unset). -/
def partPort : Nat := 8000

/-- app.use(express.json()); -/
def appAfterJson : ExpressApp :=
  appAfterCors.useMw .jsonBody

/-- app.listen(PORT, ...); -/
def appAfterListen : ExpressApp :=
  appAfterJson.listen partPort

/-- app.use("/api/v1", schoolRouter); the final assembled application. -/
def assembledApp : ExpressApp :=
  appAfterListen.mount "/api/v1" "schoolRouter"

/-! ## Validation middleware

Modelled from the spec: src/lib/validation.ts (validateRequest) is not
included in the sources, only its call sites in categories.routes.ts are.
Per the spec it "validates each declared part independently; if any part
fails, responds immediately with HTTP 422 and a structured error body
listing all violations, and does not invoke the handler". -/

/-- One field of a Zod object schema: the field name together with whether
a given part value satisfies the field's rule. -/
structure FieldRule (ρ : Type) where
  field : String
  check : ρ → Bool

/-- A Zod object schema over a request part of type ρ. -/
abbrev ZodObjectSchema (ρ : Type) : Type :=
  List (FieldRule ρ)

/-- All violated fields of one part, in schema order. -/
def partIssues {ρ : Type} (sch : ZodObjectSchema ρ) (x : ρ) : List String :=
  (sch.filter (fun r => !(r.check x))).map (fun r => r.field)

/-- Modelled from the spec: validateRequest checks each declared part
(params, body) independently and accumulates every violation. -/
def validateRequest {π β : Type} (ps : Option (ZodObjectSchema π))
    (bs : Option (ZodObjectSchema β)) (p : π) (b : β) : List String :=
  (match ps with | some sch => partIssues sch p | none => []) ++
    (match bs with | some sch => partIssues sch b | none => [])

/-- Modelled from the spec: the middleware responds 422 with the structured
issue list when any declared part fails, and otherwise invokes the
handler. -/
def runValidated {π β : Type} (ps : Option (ZodObjectSchema π))
    (bs : Option (ZodObjectSchema β)) (p : π) (b : β)
    (handler : π → β → Response) : Response :=
  let issues := validateRequest ps bs p b
  if issues = [] then handler p b
  else { status := 422, body := .errDetails "Validation failed" issues }

/-- The id path-parameter schema of categories.schema.ts:
z.string().min(1, "Invalid ID format"). -/
def idParamRules : ZodObjectSchema String :=
  [{ field := "id", check := fun s => !(decide (s = "")) }]

/-- The required fields of CreateCategorySchema that carry a min(1) rule:
name and slug (the schema omits only id and the timestamps). -/
def createBodyRules : ZodObjectSchema CreateBody :=
  [{ field := "name", check := fun b => !(decide (b.name = "")) },
   { field := "slug", check := fun b => isTruthyStr b.slug }]

/-! ## Concrete fixtures used by the witnesses and counterexamples -/

def emptyStore : Store :=
  { cats := [], nextId := 0, now := 0 }

def bodyElectronics : CreateBody :=
  { name := "Electronics", slug := none, description := none, color := none,
    isActive := none }

def bodySuppliedSlug : CreateBody :=
  { name := "Gadgets", slug := some "gadgets", description := none,
    color := none, isActive := none }

def catBooks : Category :=
  { id := "c1", name := "Books", slug := "custom-slug", description := none,
    color := "#3B82F6", isActive := true, createdAt := 0 }

def storeBooks : Store :=
  { cats := [catBooks], nextId := 2, now := 1 }

def bodySameName : UpdateBody :=
  { name := some "Books", slug := none, description := none, color := none,
    isActive := none }

def bodyNewName : UpdateBody :=
  { name := some "New Name", slug := none, description := none, color := none,
    isActive := none }

def catInactive : Category :=
  { id := "c9", name := "Archived", slug := "archived", description := none,
    color := "#3B82F6", isActive := false, createdAt := 3 }

def storeMixed : Store :=
  { cats := [catBooks, catInactive], nextId := 10, now := 5 }

def badCreateBody : CreateBody :=
  { name := "", slug := none, description := none, color := none,
    isActive := none }

def okHandler : String → CreateBody → Response :=
  fun _ _ => { status := 200, body := .msg "ok" }

def bodyDerivedBack : CreateBody :=
  { name := "Electronics", slug := some "electronics", description := none,
    color := none, isActive := none }

def catBooksRenamed : Category :=
  { id := "c1", name := "New Name", slug := "new-name", description := none,
    color := "#3B82F6", isActive := true, createdAt := 0 }

def rawEnvEmpty : RawEnv :=
  { NODE_ENV := none, PORT := none, DATABASE_URL := none, FRONTEND_URL := none }

def rawEnvDbOnly : RawEnv :=
  { NODE_ENV := none, PORT := none,
    DATABASE_URL := some "postgresql://localhost:5432/db", FRONTEND_URL := none }

/-! ## Lemmas about the slug pipeline -/

theorem hyphen_not_lowerAlnum : isLowerAlnum '-' = false := by
  decide

theorem mem_collapseRuns : ∀ (b : Bool) (l : List Char),
    ∀ c ∈ collapseRuns b l, SlugChar c := by
  intro b l
  induction l generalizing b with
  | nil => simp [collapseRuns]
  | cons a cs ih =>
    intro c hc
    by_cases ha : isLowerAlnum a
    · simp only [collapseRuns, if_pos ha, List.mem_cons] at hc
      rcases hc with rfl | hc
      · exact Or.inl ha
      · exact ih false c hc
    · cases b with
      | true =>
        simp only [collapseRuns, if_neg ha, if_pos rfl] at hc
        exact ih true c hc
      | false =>
        simp only [collapseRuns, if_neg ha, Bool.false_eq_true, if_false,
          List.mem_cons] at hc
        rcases hc with rfl | hc
        · exact Or.inr rfl
        · exact ih true c hc

theorem collapseRuns_true_head : ∀ (l : List Char) (c : Char),
    (collapseRuns true l).head? = some c → isLowerAlnum c = true := by
  intro l
  induction l with
  | nil => intro c h; simp [collapseRuns] at h
  | cons a cs ih =>
    intro c h
    by_cases ha : isLowerAlnum a
    · simp only [collapseRuns, if_pos ha, List.head?_cons, Option.some.injEq] at h
      exact h ▸ ha
    · simp only [collapseRuns, if_neg ha, if_pos rfl] at h
      exact ih c h

theorem chain_collapseRuns : ∀ (b : Bool) (l : List Char),
    (collapseRuns b l).Chain' NotHH := by
  intro b l
  induction l generalizing b with
  | nil => simp [collapseRuns]
  | cons a cs ih =>
    by_cases ha : isLowerAlnum a
    · simp only [collapseRuns, if_pos ha]
      refine List.chain'_cons'.mpr ⟨?_, ih false⟩
      intro y _ hy
      rcases hy with ⟨h1, _⟩
      rw [h1] at ha
      exact absurd ha (by simp [hyphen_not_lowerAlnum])
    · cases b with
      | true => simpa only [collapseRuns, if_neg ha, if_pos rfl] using ih true
      | false =>
        simp only [collapseRuns, if_neg ha]
        refine List.chain'_cons'.mpr ⟨?_, ih true⟩
        intro y hy hcontra
        rcases hcontra with ⟨_, h2⟩
        have := collapseRuns_true_head cs y (Option.mem_def.mp hy)
        rw [h2] at this
        exact absurd this (by simp [hyphen_not_lowerAlnum])

theorem mem_dropLeadHyphen {l : List Char} {c : Char}
    (h : c ∈ dropLeadHyphen l) : c ∈ l := by
  cases l with
  | nil => simp [dropLeadHyphen] at h
  | cons a cs =>
    by_cases ha : a = '-'
    · simp only [dropLeadHyphen, if_pos ha] at h
      exact List.mem_cons_of_mem a h
    · simpa only [dropLeadHyphen, if_neg ha] using h

theorem chain_dropLeadHyphen {l : List Char} (h : l.Chain' NotHH) :
    (dropLeadHyphen l).Chain' NotHH := by
  cases l with
  | nil => simp [dropLeadHyphen]
  | cons a cs =>
    by_cases ha : a = '-'
    · simpa only [dropLeadHyphen, if_pos ha] using h.tail
    · simpa only [dropLeadHyphen, if_neg ha] using h

theorem head_dropLeadHyphen {l : List Char} (h : l.Chain' NotHH) :
    ∀ c, (dropLeadHyphen l).head? = some c → c ≠ '-' := by
  intro c hc
  cases l with
  | nil => simp [dropLeadHyphen] at hc
  | cons a cs =>
    by_cases ha : a = '-'
    · simp only [dropLeadHyphen, if_pos ha] at hc
      subst ha
      have hrel := (List.chain'_cons'.mp h).1 c (Option.mem_def.mpr hc)
      intro hc'
      exact hrel ⟨rfl, hc'⟩
    · simp only [dropLeadHyphen, if_neg ha, List.head?_cons, Option.some.injEq] at hc
      exact hc ▸ ha

theorem getLast_dropLeadHyphen {l : List Char}
    (h : ∀ c, l.getLast? = some c → c ≠ '-') :
    ∀ c, (dropLeadHyphen l).getLast? = some c → c ≠ '-' := by
  intro c hc
  cases l with
  | nil => simp [dropLeadHyphen] at hc
  | cons a cs =>
    by_cases ha : a = '-'
    · simp only [dropLeadHyphen, if_pos ha] at hc
      cases cs with
      | nil => simp at hc
      | cons b cs' => exact h c (by rw [List.getLast?_cons_cons]; exact hc)
    · simp only [dropLeadHyphen, if_neg ha] at hc
      exact h c hc

theorem dropLeadHyphen_eq_self {l : List Char} (h : l.head? ≠ some '-') :
    dropLeadHyphen l = l := by
  cases l with
  | nil => rfl
  | cons a cs =>
    have ha : a ≠ '-' := by
      intro hc
      exact h (by rw [hc]; rfl)
    simp [dropLeadHyphen, if_neg ha]

theorem chain_reverse_notHH {l : List Char} (h : l.Chain' NotHH) :
    l.reverse.Chain' NotHH := by
  rw [List.chain'_reverse]
  exact h.imp (fun a b hab => fun hc => hab ⟨hc.2, hc.1⟩)

theorem mem_dropTrailHyphen {l : List Char} {c : Char}
    (h : c ∈ dropTrailHyphen l) : c ∈ l := by
  unfold dropTrailHyphen at h
  rw [List.mem_reverse] at h
  exact List.mem_reverse.mp (mem_dropLeadHyphen h)

theorem chain_dropTrailHyphen {l : List Char} (h : l.Chain' NotHH) :
    (dropTrailHyphen l).Chain' NotHH := by
  unfold dropTrailHyphen
  exact chain_reverse_notHH (chain_dropLeadHyphen (chain_reverse_notHH h))

theorem head_dropTrailHyphen {l : List Char}
    (h : ∀ c, l.head? = some c → c ≠ '-') :
    ∀ c, (dropTrailHyphen l).head? = some c → c ≠ '-' := by
  intro c hc
  unfold dropTrailHyphen at hc
  rw [List.head?_reverse] at hc
  refine getLast_dropLeadHyphen ?_ c hc
  intro d hd
  rw [List.getLast?_reverse] at hd
  exact h d hd

theorem getLast_dropTrailHyphen {l : List Char} (h : l.Chain' NotHH) :
    ∀ c, (dropTrailHyphen l).getLast? = some c → c ≠ '-' := by
  intro c hc
  unfold dropTrailHyphen at hc
  rw [List.getLast?_reverse] at hc
  exact head_dropLeadHyphen (chain_reverse_notHH h) c hc

theorem dropTrailHyphen_eq_self {l : List Char} (h : l.getLast? ≠ some '-') :
    dropTrailHyphen l = l := by
  unfold dropTrailHyphen
  rw [dropLeadHyphen_eq_self (by rwa [List.head?_reverse]), List.reverse_reverse]

theorem mem_slugifyChars {l : List Char} :
    ∀ c ∈ slugifyChars l, SlugChar c := by
  intro c hc
  exact mem_collapseRuns false _ c
    (mem_dropLeadHyphen (mem_dropTrailHyphen hc))

theorem chain_slugifyChars (l : List Char) :
    (slugifyChars l).Chain' NotHH := by
  exact chain_dropTrailHyphen (chain_dropLeadHyphen (chain_collapseRuns false _))

theorem head_slugifyChars (l : List Char) :
    ∀ c, (slugifyChars l).head? = some c → c ≠ '-' := by
  exact head_dropTrailHyphen (head_dropLeadHyphen (chain_collapseRuns false _))

theorem getLast_slugifyChars (l : List Char) :
    ∀ c, (slugifyChars l).getLast? = some c → c ≠ '-' := by
  exact getLast_dropTrailHyphen (chain_dropLeadHyphen (chain_collapseRuns false _))

theorem head_slugifyChars_ne (l : List Char) :
    (slugifyChars l).head? ≠ some '-' := by
  intro h
  exact head_slugifyChars l '-' h rfl

theorem getLast_slugifyChars_ne (l : List Char) :
    (slugifyChars l).getLast? ≠ some '-' := by
  intro h
  exact getLast_slugifyChars l '-' h rfl

/-! ## Idempotence of the slug pipeline -/

theorem toLower_eq_self_of_slugChar {c : Char} (h : SlugChar c) :
    c.toLower = c := by
  rcases h with h | h
  · have hn : (97 ≤ c.toNat ∧ c.toNat ≤ 122) ∨ (48 ≤ c.toNat ∧ c.toNat ≤ 57) := by
      simpa [isLowerAlnum, Bool.or_eq_true, Bool.and_eq_true, decide_eq_true_eq] using h
    unfold Char.toLower
    rw [if_neg]
    omega
  · rw [h]
    decide

theorem map_toLower_of_slugChars {l : List Char} (h : ∀ c ∈ l, SlugChar c) :
    l.map Char.toLower = l := by
  induction l with
  | nil => rfl
  | cons a cs ih =>
    simp only [List.map_cons]
    rw [toLower_eq_self_of_slugChar (h a (List.mem_cons_self a cs)),
      ih (fun c hc => h c (List.mem_cons_of_mem a hc))]

theorem collapseRuns_eq_self : ∀ (l : List Char),
    (∀ c ∈ l, SlugChar c) → l.Chain' NotHH →
    collapseRuns false l = l ∧ (l.head? ≠ some '-' → collapseRuns true l = l) := by
  intro l
  induction l with
  | nil => intro _ _; exact ⟨rfl, fun _ => rfl⟩
  | cons a cs ih =>
    intro hmem hch
    have ihcs := ih (fun c hc => hmem c (List.mem_cons_of_mem a hc)) hch.tail
    by_cases ha : isLowerAlnum a
    · constructor
      · simp only [collapseRuns, if_pos ha, ihcs.1]
      · intro _
        simp only [collapseRuns, if_pos ha, ihcs.1]
    · have ha' : a = '-' := by
        rcases hmem a (List.mem_cons_self a cs) with h | h
        · exact absurd h ha
        · exact h
      subst ha'
      constructor
      · have hhd : cs.head? ≠ some '-' := by
          intro hc
          exact (List.chain'_cons'.mp hch).1 '-' (Option.mem_def.mpr hc) ⟨rfl, rfl⟩
        simp only [collapseRuns, if_neg ha, Bool.false_eq_true, if_false,
          ihcs.2 hhd]
      · intro habs
        exact absurd rfl habs

theorem slugifyChars_idem (l : List Char) :
    slugifyChars (slugifyChars l) = slugifyChars l := by
  have h1 : (slugifyChars l).map Char.toLower = slugifyChars l :=
    map_toLower_of_slugChars mem_slugifyChars
  have h2 : collapseRuns false (slugifyChars l) = slugifyChars l :=
    (collapseRuns_eq_self _ mem_slugifyChars (chain_slugifyChars l)).1
  have h3 : dropLeadHyphen (slugifyChars l) = slugifyChars l :=
    dropLeadHyphen_eq_self (head_slugifyChars_ne l)
  have h4 : dropTrailHyphen (slugifyChars l) = slugifyChars l :=
    dropTrailHyphen_eq_self (getLast_slugifyChars_ne l)
  calc slugifyChars (slugifyChars l)
      = dropTrailHyphen (dropLeadHyphen
          (collapseRuns false ((slugifyChars l).map Char.toLower))) := rfl
    _ = slugifyChars l := by rw [h1, h2, h3, h4]

/-! ## Claim theorems -/

/-- Claim C1: for every create request whose body contains a (truthy) name but
no slug, the created record's slug equals the name lower-cased, with every run
of non-alphanumeric characters replaced by a single hyphen, and with leading
and trailing hyphens trimmed — which is exactly slugify — so the result has no
leading and no trailing hyphen. -/
theorem createCategory_derives_slug (st : Store) (b : CreateBody)
    (hs : isFalsyStr b.slug = true) (hn : b.name ≠ "")
    (hfree : conflictsWith st.cats b.name (slugify b.name) = false) :
    ∃ c st', createCategory st b = ({ status := 201, body := .cat c }, st') ∧
      c.slug = slugify b.name ∧
      c.slug.data.head? ≠ some '-' ∧
      c.slug.data.getLast? ≠ some '-' := by
  have hb' : deriveCreateBody b = { b with slug := some (slugify b.name) } := by
    simp [deriveCreateBody, hs, hn]
  refine ⟨createdCat st { b with slug := some (slugify b.name) } (slugify b.name),
    { cats := createdCat st { b with slug := some (slugify b.name) }
        (slugify b.name) :: st.cats,
      nextId := st.nextId + 1, now := st.now + 1 },
    ?_, rfl, head_slugifyChars_ne b.name.data, getLast_slugifyChars_ne b.name.data⟩
  simp only [createCategory, hb', dbCreate, hfree, Bool.false_eq_true, if_false]

/-- Witness for C1: posting name "Electronics" with no slug creates a record
whose slug is the derived "electronics". -/
theorem createCategory_derives_slug_witness :
    ∃ c st', createCategory emptyStore bodyElectronics
        = ({ status := 201, body := .cat c }, st') ∧
      c.slug = slugify bodyElectronics.name ∧
      c.slug.data.head? ≠ some '-' ∧
      c.slug.data.getLast? ≠ some '-' :=
  createCategory_derives_slug emptyStore bodyElectronics (by decide) (by decide)
    (by decide)

/-- Claim C2: a persistence error with code "P2002" is mapped to 409 by both
the create and the update handler; every other persistence error is mapped to
500 with a fixed generic body that does not depend on the error; consequently
creating the same category twice yields one 201 and then one 409. -/
theorem createCategory_conflict_handling :
    (∀ e : PrismaError, e.code = "P2002" →
      createRespondErr e
          = { status := 409,
              body := .err "Category with this name or slug already exists" } ∧
      updateRespondErr e
          = { status := 409,
              body := .err "Category with this name or slug already exists" }) ∧
    (∀ e : PrismaError, e.code ≠ "P2002" →
      createRespondErr e
          = { status := 500, body := .err "Failed to create category" } ∧
      updateRespondErr e
          = { status := 500, body := .err "Failed to update category" }) ∧
    (∀ (st : Store) (b : CreateBody) (s : String),
      (deriveCreateBody b).slug = some s →
      conflictsWith st.cats (deriveCreateBody b).name s = false →
      (createCategory st b).1.status = 201 ∧
      (createCategory (createCategory st b).2 b).1.status = 409) := by
  refine ⟨?_, ?_, ?_⟩
  · intro e he
    exact ⟨by simp [createRespondErr, he], by simp [updateRespondErr, he]⟩
  · intro e he
    exact ⟨by simp [createRespondErr, he], by simp [updateRespondErr, he]⟩
  · intro st b s hs hfree
    have h1 : createCategory st b
        = ({ status := 201, body := .cat (createdCat st (deriveCreateBody b) s) },
           { cats := createdCat st (deriveCreateBody b) s :: st.cats,
             nextId := st.nextId + 1, now := st.now + 1 }) := by
      simp only [createCategory, dbCreate, hs, hfree, Bool.false_eq_true, if_false]
    refine ⟨by rw [h1], ?_⟩
    rw [h1]
    have hconf2 : conflictsWith
        (createdCat st (deriveCreateBody b) s :: st.cats)
        (deriveCreateBody b).name s = true := by
      simp [conflictsWith, createdCat]
    simp only [createCategory, dbCreate, hs, hconf2, if_true, createRespondErr]

/-- Witness for C2: the mapping at concrete errors, and a concrete duplicate
create producing 201 then 409. -/
theorem createCategory_conflict_handling_witness :
    (createRespondErr { code := "P2002" }
        = { status := 409,
            body := .err "Category with this name or slug already exists" } ∧
      updateRespondErr { code := "P2002" }
        = { status := 409,
            body := .err "Category with this name or slug already exists" }) ∧
    (createRespondErr { code := "ECONNRESET" }
        = { status := 500, body := .err "Failed to create category" } ∧
      updateRespondErr { code := "ECONNRESET" }
        = { status := 500, body := .err "Failed to update category" }) ∧
    ((createCategory emptyStore bodySuppliedSlug).1.status = 201 ∧
      (createCategory (createCategory emptyStore bodySuppliedSlug).2
        bodySuppliedSlug).1.status = 409) :=
  ⟨createCategory_conflict_handling.1 { code := "P2002" } rfl,
   createCategory_conflict_handling.2.1 { code := "ECONNRESET" } (by decide),
   createCategory_conflict_handling.2.2 emptyStore bodySuppliedSlug "gadgets"
     (by decide) (by decide)⟩

/-- Claim C10: the slug-derivation pipeline is idempotent on every string, and
a derived slug passed back as the explicit slug of its own name is preserved
by the create derivation step. -/
theorem slugify_idempotent :
    (∀ s : String, slugify (slugify s) = slugify s) ∧
    (∀ b : CreateBody, b.slug = some (slugify b.name) →
      (deriveCreateBody b).slug = b.slug) := by
  refine ⟨fun s => congrArg String.mk (slugifyChars_idem s.data), ?_⟩
  intro b hb
  unfold deriveCreateBody
  split
  · exact hb.symm
  · rfl

/-- Witness for C10 at a concrete string and a concrete passed-back slug. -/
theorem slugify_idempotent_witness :
    slugify (slugify " Hello,  World! ") = slugify " Hello,  World! " ∧
    (deriveCreateBody bodyDerivedBack).slug = bodyDerivedBack.slug :=
  ⟨slugify_idempotent.1 " Hello,  World! ",
   slugify_idempotent.2 bodyDerivedBack (by decide)⟩

/-- Claim C3: deleting a category whose id is absent responds 404 and leaves
the store unchanged; deleting a present one responds 200 with the
confirmation message, keeps the record in the store (row count unchanged, the
id still resolves) and clears its isActive flag. -/
theorem deleteCategory_soft_delete (st : Store) (id : String) :
    (findUniqueId st.cats id = none →
      deleteCategory st id
        = ({ status := 404, body := .msg "Category not found" }, st)) ∧
    (∀ c, findUniqueId st.cats id = some c →
      (deleteCategory st id).1
          = { status := 200, body := .msg "Category deleted successfully" } ∧
      ((deleteCategory st id).2).cats.length = st.cats.length ∧
      findUniqueId ((deleteCategory st id).2).cats id
          = some { c with isActive := false }) := by
  constructor
  · intro h
    simp [deleteCategory, h]
  · intro c h
    have hfind : List.find? (fun d : Category => decide (d.id = id)) st.cats
        = some c := h
    have hc : c.id = id := by
      have hp := List.find?_some hfind
      simpa using hp
    refine ⟨by simp [deleteCategory, h], by simp [deleteCategory, h], ?_⟩
    have hpf : ((fun d : Category => decide (d.id = id)) ∘
          (fun d : Category => if d.id = id then { d with isActive := false } else d))
        = fun d : Category => decide (d.id = id) := by
      funext d
      by_cases hd : d.id = id <;> simp [hd]
    simp only [deleteCategory, findUniqueId, hfind]
    rw [List.find?_map, hpf]
    show (List.find? (fun d : Category => decide (d.id = id)) st.cats).map _
        = some { c with isActive := false }
    rw [show List.find? (fun d : Category => decide (d.id = id)) st.cats = some c from h]
    simp [hc]

/-- Witness for C3: deleting the stored category "c1" responds 200, keeps the
row and clears its active flag. -/
theorem deleteCategory_soft_delete_witness :
    (deleteCategory storeBooks "c1").1
        = { status := 200, body := .msg "Category deleted successfully" } ∧
    ((deleteCategory storeBooks "c1").2).cats.length = storeBooks.cats.length ∧
    findUniqueId ((deleteCategory storeBooks "c1").2).cats "c1"
        = some { catBooks with isActive := false } :=
  (deleteCategory_soft_delete storeBooks "c1").2 catBooks (by decide)

/-- Claim C4: listing categories responds 200 with exactly the active records
(a permutation of the active-filtered store) ordered by creation time
descending, and a persistence failure is mapped to 500. -/
theorem listCategories_active_sorted :
    (∀ st : Store, ∃ l, listCategories st = { status := 200, body := .cats l } ∧
      l.Perm (st.cats.filter (fun c => c.isActive)) ∧
      (∀ c, c ∈ l ↔ (c ∈ st.cats ∧ c.isActive = true)) ∧
      l.Pairwise (fun a b => b.createdAt ≤ a.createdAt)) ∧
    (∀ e, listCategoriesWith (.error e)
        = { status := 500, body := .err "Failed to fetch categories" }) := by
  constructor
  · intro st
    refine ⟨dbFindManyActiveDesc st.cats, rfl, ?_, ?_, ?_⟩
    · exact List.perm_insertionSort createdDesc _
    · intro c
      unfold dbFindManyActiveDesc
      rw [(List.perm_insertionSort createdDesc _).mem_iff]
      simp [List.mem_filter]
    · exact List.sorted_insertionSort createdDesc _
  · intro e
    rfl

/-- Witness for C4 at a store holding one active and one inactive record. -/
theorem listCategories_active_sorted_witness :
    ∃ l, listCategories storeMixed = { status := 200, body := .cats l } ∧
      l.Perm (storeMixed.cats.filter (fun c => c.isActive)) ∧
      (∀ c, c ∈ l ↔ (c ∈ storeMixed.cats ∧ c.isActive = true)) ∧
      l.Pairwise (fun a b => b.createdAt ≤ a.createdAt) :=
  listCategories_active_sorted.1 storeMixed

/-- Claim C5: get-by-id responds 200 with the stored record whenever the id
resolves, whatever its isActive flag, and in particular never 404 for a
present record. -/
theorem getCategory_ignores_active (st : Store) (id : String) (c : Category)
    (h : findUniqueId st.cats id = some c) :
    getCategory st id = { status := 200, body := .cat c } ∧
    (getCategory st id).status ≠ 404 := by
  have hg : getCategory st id = { status := 200, body := .cat c } := by
    simp [getCategory, h]
  refine ⟨hg, ?_⟩
  rw [hg]
  show (200 : Nat) ≠ 404
  decide

/-- Witness for C5: the soft-deleted category "c9" (isActive = false) is
returned with 200, not 404. -/
theorem getCategory_ignores_active_witness :
    (getCategory storeMixed "c9" = { status := 200, body := .cat catInactive } ∧
      (getCategory storeMixed "c9").status ≠ 404) ∧
    catInactive.isActive = false :=
  ⟨getCategory_ignores_active storeMixed "c9" catInactive (by decide), by decide⟩

/-- Unfolding of dbUpdate once the row has been found. -/
theorem dbUpdate_found (st : Store) (id : String) (b : UpdateBody) (c : Category)
    (hfind : findUniqueId st.cats id = some c) :
    dbUpdate st id b
      = (if updateConflict st.cats id (applyUpdate c b)
         then .error { code := "P2002" }
         else .ok (applyUpdate c b,
           { cats := st.cats.map (fun d => if d.id = id then applyUpdate c b else d),
             nextId := st.nextId, now := st.now + 1 })) := by
  unfold dbUpdate
  rw [hfind]

/-- Unfolding of updateCategory once the row has been found. -/
theorem updateCategory_found (st : Store) (id : String) (b : UpdateBody)
    (c : Category) (hfind : findUniqueId st.cats id = some c) :
    updateCategory st id b
      = (if updateConflict st.cats id (applyUpdate c (deriveUpdateBody b))
         then (updateRespondErr { code := "P2002" }, st)
         else ({ status := 200, body := .cat (applyUpdate c (deriveUpdateBody b)) },
           { cats := st.cats.map
               (fun d => if d.id = id then applyUpdate c (deriveUpdateBody b) else d),
             nextId := st.nextId, now := st.now + 1 })) := by
  unfold updateCategory
  rw [hfind, dbUpdate_found st id (deriveUpdateBody b) c hfind]
  by_cases hcf : updateConflict st.cats id (applyUpdate c (deriveUpdateBody b)) <;>
    simp [hcf]

/-- Counterexample to claim C6: a PATCH that supplies the unchanged stored
name "Books" and no slug still re-derives the slug, overwriting the custom
stored slug instead of keeping it. -/
theorem updateCategory_rederives_unchanged_name :
    bodySameName.name = some catBooks.name ∧
    bodySameName.slug = none ∧
    (updateCategory storeBooks "c1" bodySameName).1
        = { status := 200, body := .cat { catBooks with slug := "books" } } ∧
    ("books" : String) ≠ "custom-slug" := by
  refine ⟨rfl, rfl, by decide, by decide⟩

/-- Claim C6 amended: on update of an existing record the slug is re-derived
from the supplied name exactly when the body carries a non-empty name and no
(or an empty) slug — whether or not that name differs from the stored one;
otherwise a supplied non-empty slug is used as-is, and the stored slug is
kept when neither name nor slug is supplied. -/
theorem updateCategory_slug_rule (st : Store) (id : String) (b : UpdateBody)
    (c c' : Category)
    (hfind : findUniqueId st.cats id = some c)
    (hok : (updateCategory st id b).1 = { status := 200, body := .cat c' }) :
    (∀ n, b.name = some n → n ≠ "" → isFalsyStr b.slug = true →
      c'.slug = slugify n) ∧
    (∀ s, b.slug = some s → s ≠ "" → c'.slug = s) ∧
    (isTruthyStr b.name = false → b.slug = none → c'.slug = c.slug) := by
  have hkey : c' = applyUpdate c (deriveUpdateBody b) := by
    rw [updateCategory_found st id b c hfind] at hok
    by_cases hcf : updateConflict st.cats id (applyUpdate c (deriveUpdateBody b))
    · rw [if_pos hcf] at hok
      simp [updateRespondErr] at hok
    · rw [if_neg hcf] at hok
      simp only [Response.mk.injEq, RespBody.cat.injEq, true_and] at hok
      exact hok.symm
  refine ⟨?_, ?_, ?_⟩
  · intro n hn hne hsl
    rw [hkey]
    have hfn : isFalsyStr b.name = false := by
      rw [hn]
      simp [isFalsyStr, hne]
    have hcond : (isTruthyStr b.name && isFalsyStr b.slug) = true := by
      simp [isTruthyStr, hfn, hsl]
    unfold deriveUpdateBody
    rw [if_pos hcond]
    simp [applyUpdate, hn]
  · intro s hs hse
    rw [hkey]
    have hfs : isFalsyStr b.slug = false := by
      rw [hs]
      simp [isFalsyStr, hse]
    unfold deriveUpdateBody
    rw [if_neg (by simp [hfs])]
    simp [applyUpdate, hs]
  · intro hnt hns
    rw [hkey]
    unfold deriveUpdateBody
    rw [if_neg (by simp [hnt])]
    simp [applyUpdate, hns]

/-- Witness for the amended C6 at a concrete update supplying a new name and
no slug: the stored row "c1" ends up with the derived slug. -/
theorem updateCategory_slug_rule_witness :
    (∀ n, bodyNewName.name = some n → n ≠ "" → isFalsyStr bodyNewName.slug = true →
      catBooksRenamed.slug = slugify n) ∧
    (∀ s, bodyNewName.slug = some s → s ≠ "" → catBooksRenamed.slug = s) ∧
    (isTruthyStr bodyNewName.name = false → bodyNewName.slug = none →
      catBooksRenamed.slug = catBooks.slug) :=
  updateCategory_slug_rule storeBooks "c1" bodyNewName catBooks catBooksRenamed
    (by decide) (by decide)

/-- Claim C7 (validateRequest modelled from the spec, its source being outside
the provided files): when any declared part violates its schema the middleware
responds 422 with the structured issue list, the response does not depend on
the handler (the handler is not invoked), and every violated field of every
declared part appears in the issue list, not only the first. -/
theorem validateRequest_rejects_all_violations {π β : Type}
    (ps : Option (ZodObjectSchema π)) (bs : Option (ZodObjectSchema β))
    (p : π) (b : β) (handler : π → β → Response)
    (hbad : validateRequest ps bs p b ≠ []) :
    runValidated ps bs p b handler
        = { status := 422,
            body := .errDetails "Validation failed" (validateRequest ps bs p b) } ∧
    (∀ handler2, runValidated ps bs p b handler
        = runValidated ps bs p b handler2) ∧
    (∀ sch, ps = some sch → ∀ r ∈ sch, r.check p = false →
      r.field ∈ validateRequest ps bs p b) ∧
    (∀ sch, bs = some sch → ∀ r ∈ sch, r.check b = false →
      r.field ∈ validateRequest ps bs p b) := by
  have hrun : ∀ h2 : π → β → Response, runValidated ps bs p b h2
      = { status := 422,
          body := .errDetails "Validation failed" (validateRequest ps bs p b) } := by
    intro h2
    unfold runValidated
    rw [if_neg hbad]
  refine ⟨hrun handler, fun h2 => (hrun handler).trans (hrun h2).symm, ?_, ?_⟩
  · intro sch hps r hr hcheck
    subst hps
    unfold validateRequest
    apply List.mem_append_left
    simp only [partIssues, List.mem_map, List.mem_filter]
    exact ⟨r, ⟨hr, by simp [hcheck]⟩, rfl⟩
  · intro sch hbs r hr hcheck
    subst hbs
    unfold validateRequest
    apply List.mem_append_right
    simp only [partIssues, List.mem_map, List.mem_filter]
    exact ⟨r, ⟨hr, by simp [hcheck]⟩, rfl⟩

/-- Witness for C7: a create payload with empty name and missing slug is
rejected with 422 and both violated fields are listed. -/
theorem validateRequest_rejects_all_violations_witness :
    runValidated (some idParamRules) (some createBodyRules) "x" badCreateBody
        okHandler
        = { status := 422,
            body := .errDetails "Validation failed"
              (validateRequest (some idParamRules) (some createBodyRules) "x"
                badCreateBody) } ∧
    (∀ handler2, runValidated (some idParamRules) (some createBodyRules) "x"
        badCreateBody okHandler
        = runValidated (some idParamRules) (some createBodyRules) "x"
            badCreateBody handler2) ∧
    (∀ sch, (some idParamRules : Option (ZodObjectSchema String)) = some sch →
      ∀ r ∈ sch, r.check "x" = false →
        r.field ∈ validateRequest (some idParamRules) (some createBodyRules) "x"
          badCreateBody) ∧
    (∀ sch, (some createBodyRules : Option (ZodObjectSchema CreateBody)) = some sch →
      ∀ r ∈ sch, r.check badCreateBody = false →
        r.field ∈ validateRequest (some idParamRules) (some createBodyRules) "x"
          badCreateBody) :=
  validateRequest_rejects_all_violations (some idParamRules) (some createBodyRules)
    "x" badCreateBody okHandler (by decide)

/-- Claim C8: startup with a missing DATABASE_URL reports it among the
configuration issues and exits with the non-zero status 1 before listening;
any configuration parse failure exits with status 1 and a non-empty issue
list; with a valid configuration and PORT unset the server listens on the
default port 5000. -/
theorem startup_validates_env (r : RawEnv) :
    (r.DATABASE_URL = none →
      startup r = .exited 1 (envIssues r) ∧ "DATABASE_URL" ∈ envIssues r ∧
        (1 : Nat) ≠ 0) ∧
    (∀ issues, parseEnv r = .error issues →
      startup r = .exited 1 issues ∧ issues ≠ []) ∧
    (∀ url, r.DATABASE_URL = some url → r.PORT = none →
      startup r = .listening 5000) := by
  refine ⟨?_, ?_, ?_⟩
  · intro hdb
    have hmem : "DATABASE_URL" ∈ envIssues r := by
      unfold envIssues
      rw [hdb]
      exact List.mem_append_right _ (List.mem_singleton.mpr rfl)
    have hne : envIssues r ≠ [] := List.ne_nil_of_mem hmem
    refine ⟨?_, hmem, by decide⟩
    unfold startup parseEnv
    rw [if_neg hne]
  · intro issues hiss
    unfold parseEnv at hiss
    by_cases hne : envIssues r = []
    · rw [if_pos hne] at hiss
      exact absurd hiss (by simp)
    · rw [if_neg hne] at hiss
      simp only [Except.error.injEq] at hiss
      subst hiss
      refine ⟨?_, hne⟩
      unfold startup parseEnv
      rw [if_neg hne]
  · intro url hdb hp
    have hiss : envIssues r = [] := by
      unfold envIssues
      rw [hdb, hp]
      rfl
    unfold startup parseEnv
    rw [if_pos hiss]
    simp [hp]

/-- Witness for C8: the empty environment exits with status 1 reporting
DATABASE_URL; an environment with only DATABASE_URL set listens on 5000. -/
theorem startup_validates_env_witness :
    (startup rawEnvEmpty = .exited 1 (envIssues rawEnvEmpty) ∧
      "DATABASE_URL" ∈ envIssues rawEnvEmpty ∧ (1 : Nat) ≠ 0) ∧
    startup rawEnvDbOnly = .listening 5000 :=
  ⟨(startup_validates_env rawEnvEmpty).1 rfl,
   (startup_validates_env rawEnvDbOnly).2.2 "postgresql://localhost:5432/db"
     rfl rfl⟩

/-- Counterexample to claim C9: the application assembly of
src/unnamed/part_000 installs only the CORS and JSON body-parsing
middlewares — no security-header, rate-limiting or request-logging
middleware — and mounts the school router under the fixed path "/api/v1"
rather than a per-resource /api/school path. -/
theorem appAssembly_not_as_claimed :
    assembledApp.middlewares = [Mw.cors, Mw.jsonBody] ∧
    assembledApp.middlewares
        ≠ [Mw.cors, Mw.helmet, Mw.rateLimit, Mw.jsonBody, Mw.logger] ∧
    assembledApp.mounts = [("/api/v1", "schoolRouter")] ∧
    ("/api/v1" : String) ≠ "/api/school" ∧
    ("/api/v1" : String) ≠ "/api/schools" := by
  refine ⟨rfl, by decide, rfl, by decide, by decide⟩

/-- Claim C9 amended: the assembly installs CORS and then JSON body parsing,
in that order and nothing else, starts listening on port 8000, and mounts the
single school router under the fixed path "/api/v1". -/
theorem appAssembly_actual :
    assembledApp = { middlewares := [Mw.cors, Mw.jsonBody],
                     mounts := [("/api/v1", "schoolRouter")],
                     listening := some 8000 } :=
  rfl

end ApiTemplate
